import Mathlib

/-!
StreetViewLandscape (ZAP): distance gate, coordinate cache and image fetch.

A shallow embedding of `src/StreetViewLandscape.cpp`.

* The values of C++ `double` are the elements of an arbitrary type `D` that
  carries the arithmetic operations, the numerals, the comparison `<` and the
  number formatting the class uses. Nothing is assumed of these operations, so
  `D` may hold a NaN for which every comparison is false; what is proved for
  every `D` holds of the program with its `double` arithmetic.
* The Qt mathematics helpers (`qSin`, `qCos`, `qSqrt`, `qAtan2`,
  `qDegreesToRadians`) are a parameter `QtMath D`.
* The ordered fields `ℚ` and `ℝ`, with exact arithmetic, are instances of `D`;
  `realMath` is the exact real-number meaning of the Qt helpers. Statements
  about `realMath` describe the formula over the reals; they carry over to the
  program only where rounding does not matter.
* The JSON parser and the image codec are a parameter `QtCodec Img`;
  `QImage::save` may fail.
* The file system is a map from paths to file contents, the network is a map
  from URLs to replies, and everything the object does to the outside world
  (signals, GET requests, calls of `QImage::save`) is recorded in a list of
  `Effect`s.
* `qDebug()` output and `deleteLater()` calls are not modelled.
-/

namespace StreetViewLandscape

/-! ## External collaborators -/

/-- The Qt numeric helpers used by `distanceMoved`. -/
structure QtMath (D : Type) where
  qDegreesToRadians : D → D
  qSin : D → D
  qCos : D → D
  qSqrt : D → D
  qAtan2 : D → D → D

/-- Exact real-number meaning of the Qt numeric helpers: `qDegreesToRadians d`
is `d * (M_PI / 180)` and `qAtan2 y x` is the argument of the point `(x, y)`,
in `(-π, π]`. -/
noncomputable def realMath : QtMath ℝ where
  qDegreesToRadians := fun d => d * (Real.pi / 180)
  qSin := Real.sin
  qCos := Real.cos
  qSqrt := Real.sqrt
  qAtan2 := fun y x => Complex.arg ⟨x, y⟩

/-- Contents of a `QByteArray`. -/
abbrev QByteArray := List Nat

/-- A parsed JSON value (`QJsonValue`). Object members are assumed to have
distinct keys, as in a `QJsonObject`. -/
inductive QJsonValue where
  | null
  | undefined
  | bool (b : Bool)
  | number (n : ℚ)
  | string (s : String)
  | array (items : List QJsonValue)
  | object (members : List (String × QJsonValue))

namespace QJsonValue

/-- Model of `QJsonDocument::object()` and `QJsonValue::toObject()`: the members of an
object, the empty object for everything else. -/
def toObject : QJsonValue → List (String × QJsonValue)
  | .object members => members
  | _ => []

/-- Model of `QJsonObject::operator[]`: the value stored under `key`, `Undefined` when
the key is absent. -/
def lookup (members : List (String × QJsonValue)) (key : String) : QJsonValue :=
  match members.find? (fun kv => kv.1 == key) with
  | some kv => kv.2
  | none => .undefined

/-- Model of `QJsonValue::toArray()`: the items of an array, the empty array for
everything else. -/
def toArray : QJsonValue → List QJsonValue
  | .array items => items
  | _ => []

/-- Model of `QJsonValue::toString()`: the string, or the empty string for a value
that is not a string. -/
def toString : QJsonValue → String
  | .string s => s
  | _ => ""

end QJsonValue

/-- The JSON parser and the image codec. `fromJson` is
`QJsonDocument::fromJson` (a null document for malformed input),
`loadFromData` is `QImage::loadFromData` on a fresh `QImage` (the null image
when decoding fails). `saveJpg fileName img q` is the outcome of
`img.save(fileName, "JPG", q)`: the bytes written to the file when the call
returns `true`, and `none` when it returns `false` (the image cannot be
encoded, or the file cannot be opened for writing). -/
structure QtCodec (Img : Type) where
  fromJson : QByteArray → QJsonValue
  nullImage : Img
  isNull : Img → Bool
  loadFromData : QByteArray → Img
  saveJpg : String → Img → Nat → Option QByteArray

/-- A finished `QNetworkReply`: either an error with its `errorString()`, or
`NoError` with the payload of `readAll()`. -/
inductive QNetworkReply where
  | failed (errorString : String)
  | ok (body : QByteArray)

/-- The network: the reply with which a GET request for a URL finishes. -/
abbrev Network := String → QNetworkReply

/-- The file system: the content of the file at each path, if there is one. -/
abbrev FileSystem := String → Option QByteArray

/-- The three Qt signals of the class. -/
inductive Signal (Img : Type) where
  | imageReady (image : Img)
  | loadingStarted
  | loadingFailed (error : String)

/-- What the object does to the outside world, in order: a signal emitted, a
GET request issued, a call of `QImage::save`. -/
inductive Effect (Img : Type) where
  | emit (s : Signal Img)
  | get (url : String)
  | save (path : String) (image : Img) (quality : Nat)

/-- The signals emitted in a run, in order. -/
def signals {Img : Type} : List (Effect Img) → List (Signal Img)
  | [] => []
  | .emit s :: rest => s :: signals rest
  | _ :: rest => signals rest

/-- The URLs requested in a run, in order. -/
def requests {Img : Type} : List (Effect Img) → List String
  | [] => []
  | .get url :: rest => url :: requests rest
  | _ :: rest => requests rest

/-- The paths of the `QImage::save` calls of a run, in order. -/
def writes {Img : Type} : List (Effect Img) → List String
  | [] => []
  | .save path _ _ :: rest => path :: writes rest
  | _ :: rest => writes rest

/-! ## Number formatting -/

/-- The decimal digits of `n`, left-padded with zeros to six characters. -/
def pad6 (n : Nat) : String :=
  String.mk (List.replicate (6 - (Nat.repr n).length) '0') ++ Nat.repr n

/-- The result of `QString::arg(x, 0, 'f', 6)` for a finite number: fixed-point
form with six digits after the decimal point, the magnitude rounded to the
nearest multiple of `10⁻⁶` (a tie goes away from zero), with a leading minus
sign for a negative value. -/
def formatF6 {α : Type} [LinearOrderedField α] [FloorRing α] (x : α) : String :=
  let n : Nat := ⌊|x| * 10 ^ 6 + 1 / 2⌋₊
  (if x < 0 then "-" else "") ++ Nat.repr (n / 10 ^ 6) ++ "." ++ pad6 (n % 10 ^ 6)

/-- The number formatting of a number type: `argF6 x` is the text
`QString::arg(x, 0, 'f', 6)` puts in place of the marker. -/
class QtNumberFormat (D : Type) where
  argF6 : D → String

/-- In an ordered field with a floor function every number is finite and is
formatted by `formatF6`. -/
instance instQtNumberFormatOfField {α : Type} [LinearOrderedField α] [FloorRing α] :
    QtNumberFormat α where
  argF6 := formatF6

end StreetViewLandscape

/-! ## The class -/

/-- The data members of `StreetViewLandscape` that the slots read and write
(`netManager`, `gpsSource` and `cacheMutex` carry no data of their own). -/
structure StreetViewLandscape (D : Type) where
  cacheDir : String
  lastLat : D
  lastLon : D
  minDistance : D

namespace StreetViewLandscape

variable {D : Type} {Img : Type}

/-- The state the constructor leaves: last coordinate `(0, 0)`, threshold
`100`. -/
def init [OfNat D 0] [OfNat D 100] (cacheDir : String) : StreetViewLandscape D :=
  { cacheDir := cacheDir, lastLat := 0, lastLon := 0, minDistance := 100 }

/-- The setter `setCacheDir` (the directory creation is not modelled). -/
def setCacheDir (self : StreetViewLandscape D) (dir : String) : StreetViewLandscape D :=
  { self with cacheDir := dir }

/-- The setter `setMinDistance`. -/
def setMinDistance (self : StreetViewLandscape D) (meters : D) : StreetViewLandscape D :=
  { self with minDistance := meters }

/-- The method `distanceMoved`: the haversine distance from the last coordinate to
`(lat, lon)`. -/
def distanceMoved [Add D] [Sub D] [Mul D] [Div D] [OfNat D 1] [OfNat D 2] [OfNat D 6371000]
    (M : QtMath D) (self : StreetViewLandscape D) (lat lon : D) : D :=
  let R : D := 6371000
  let dLat := M.qDegreesToRadians (lat - self.lastLat)
  let dLon := M.qDegreesToRadians (lon - self.lastLon)
  let a := M.qSin (dLat / 2) * M.qSin (dLat / 2) +
    M.qCos (M.qDegreesToRadians self.lastLat) * M.qCos (M.qDegreesToRadians lat) *
    M.qSin (dLon / 2) * M.qSin (dLon / 2)
  let c := 2 * M.qAtan2 (M.qSqrt a) (M.qSqrt (1 - a))
  R * c

/-- The method `buildApiUrl`; the declaration gives `zoomLevel` the default 15. -/
def buildApiUrl [QtNumberFormat D] (latitude longitude : D) (zoomLevel : Nat) : String :=
  "https://api.openstreetcam.org/2.0/photo/?lat=" ++ QtNumberFormat.argF6 latitude ++
    "&lng=" ++ QtNumberFormat.argF6 longitude ++ "&zoomLevel=" ++ Nat.repr zoomLevel

/-- The cache key of a coordinate: the part of the file name between the
directory and the extension. -/
def cacheKey [QtNumberFormat D] (latitude longitude : D) : String :=
  QtNumberFormat.argF6 latitude ++ "_" ++ QtNumberFormat.argF6 longitude

/-- The method `cacheFilePath`: `"%1/%2_%3.jpg"` filled with the cache directory and the
two formatted numbers (the directory name is assumed to contain no `%n`
place marker). -/
def cacheFilePath [QtNumberFormat D] (self : StreetViewLandscape D) (latitude longitude : D) :
    String :=
  self.cacheDir ++ "/" ++ cacheKey latitude longitude ++ ".jpg"

/-- The method `isImageCached`: does the cache file exist? -/
def isImageCached [QtNumberFormat D] (self : StreetViewLandscape D) (fs : FileSystem)
    (latitude longitude : D) : Bool :=
  (fs (cacheFilePath self latitude longitude)).isSome

/-- The method `getCachedImage`: `QImage::load` of the cache file; the null image when
the file is missing, whatever the decoder returns otherwise. -/
def getCachedImage [QtNumberFormat D] (Q : QtCodec Img) (self : StreetViewLandscape D)
    (fs : FileSystem) (latitude longitude : D) : Img :=
  match fs (cacheFilePath self latitude longitude) with
  | some bytes => Q.loadFromData bytes
  | none => Q.nullImage

/-- The method `compressAndStoreImage`: the file system after
`image.save(cacheFilePath(latitude, longitude), "JPG", 75)`, whose result the
method discards. When the save succeeds the file holds the bytes written; when
it fails the file system is taken to be as before. -/
def compressAndStoreImage [QtNumberFormat D] (Q : QtCodec Img) (self : StreetViewLandscape D)
    (fs : FileSystem) (image : Img) (latitude longitude : D) : FileSystem :=
  match Q.saveJpg (cacheFilePath self latitude longitude) image 75 with
  | some bytes => Function.update fs (cacheFilePath self latitude longitude) (some bytes)
  | none => fs

/-- The callback `fetchImage` connects to the thumbnail reply; `latitude` and
`longitude` are the values the closure captured. -/
def onImgReplyFinished [QtNumberFormat D] (Q : QtCodec Img) (self : StreetViewLandscape D)
    (fs : FileSystem) (latitude longitude : D) (imgReply : QNetworkReply) :
    FileSystem × List (Effect Img) :=
  match imgReply with
  | .failed errorString => (fs, [.emit (.loadingFailed errorString)])
  | .ok imgData =>
    let img := Q.loadFromData imgData
    if !Q.isNull img then
      (compressAndStoreImage Q self fs img latitude longitude,
        [.save (cacheFilePath self latitude longitude) img 75, .emit (.imageReady img)])
    else
      (fs, [.emit (.loadingFailed "Failed to load OpenStreetCam image.")])

/-- The callback `fetchImage` connects to the metadata reply: the effects, and
the thumbnail URL whose reply is now awaited, if a request was issued. -/
def onReplyFinished (Q : QtCodec Img) (reply : QNetworkReply) :
    List (Effect Img) × Option String :=
  match reply with
  | .failed errorString => ([.emit (.loadingFailed errorString)], none)
  | .ok body =>
    let obj := (Q.fromJson body).toObject
    let photos := (QJsonValue.lookup obj "photos").toArray
    match photos with
    | [] => ([.emit (.loadingFailed "No nearby OpenStreetCam image found.")], none)
    | first :: _ =>
      let photo := first.toObject
      let photoUrl := (QJsonValue.lookup photo "thumbnailUrl").toString
      if photoUrl.isEmpty then
        ([.emit (.loadingFailed "No valid OpenStreetCam image URL found.")], none)
      else
        ([.get photoUrl], some photoUrl)

/-- A fetch that has been started and whose metadata reply is awaited, with
the coordinate its callbacks captured. -/
structure Fetch (D : Type) where
  latitude : D
  longitude : D

/-- The method `fetchImage`, up to its return: the metadata request is issued and the
callback is connected. -/
def fetchImage [QtNumberFormat D] (latitude longitude : D) : List (Effect Img) × Fetch D :=
  ([.get (buildApiUrl latitude longitude 15)], { latitude := latitude, longitude := longitude })

/-- A whole fetch attempt that completes: `fetchImage` followed by its
callbacks, each run when the network delivers the reply to the request.
`self` and `fs` are the object and the file system when the thumbnail reply
arrives. -/
def fetchImageCompleted [QtNumberFormat D] (Q : QtCodec Img) (net : Network)
    (self : StreetViewLandscape D) (fs : FileSystem) (latitude longitude : D) :
    FileSystem × List (Effect Img) :=
  let started : List (Effect Img) × Fetch D := fetchImage latitude longitude
  let stage1 := onReplyFinished Q (net (buildApiUrl latitude longitude 15))
  match stage1.2 with
  | none => (fs, started.1 ++ stage1.1)
  | some photoUrl =>
    let stage2 := onImgReplyFinished Q self fs started.2.latitude started.2.longitude
      (net photoUrl)
    (stage2.1, started.1 ++ stage1.1 ++ stage2.2)

/-- What a call of the slot `onPositionUpdated` leaves behind. -/
structure Outcome (D Img : Type) where
  self : StreetViewLandscape D
  effects : List (Effect Img)
  fetch : Option (Fetch D)

/-- The slot `onPositionUpdated` for a position whose coordinate is `(lat, lon)`.
The guard is the comparison `<` of `D`: when it is false, also because the
distance or the threshold is a NaN, the sample is accepted. -/
def onPositionUpdated [Add D] [Sub D] [Mul D] [Div D] [OfNat D 1] [OfNat D 2]
    [OfNat D 6371000] [LT D] [∀ a b : D, Decidable (a < b)] [QtNumberFormat D]
    (M : QtMath D) (Q : QtCodec Img) (self : StreetViewLandscape D)
    (fs : FileSystem) (lat lon : D) : Outcome D Img :=
  if distanceMoved M self lat lon < self.minDistance then
    { self := self, effects := [], fetch := none }
  else
    let self1 := { self with lastLat := lat, lastLon := lon }
    if isImageCached self1 fs lat lon then
      { self := self1, effects := [.emit (.imageReady (getCachedImage Q self1 fs lat lon))],
        fetch := none }
    else
      let started : List (Effect Img) × Fetch D := fetchImage lat lon
      { self := self1, effects := .emit .loadingStarted :: started.1, fetch := some started.2 }

/-- A codec for concrete runs: an image is its own byte content, the image
without bytes is the null image, every metadata body parses to `doc`, and
every save succeeds. -/
def fixtureCodec (doc : QJsonValue) : QtCodec QByteArray where
  fromJson := fun _ => doc
  nullImage := []
  isNull := fun img => img.isEmpty
  loadFromData := fun bytes => bytes
  saveJpg := fun _ img _ => some img

/-- The codec of `fixtureCodec` over a cache directory that cannot be written:
every save fails. -/
def readOnlyCodec (doc : QJsonValue) : QtCodec QByteArray where
  fromJson := fun _ => doc
  nullImage := []
  isNull := fun img => img.isEmpty
  loadFromData := fun bytes => bytes
  saveJpg := fun _ _ _ => none

/-! ## Vocabulary of the specification for cache keys -/

/-- Two numbers differ only beyond the 6th decimal place: they have the same
sign and the decimal expansions of their magnitudes agree up to and including
the sixth digit after the point. -/
def agreeToSixDecimals {α : Type} [LinearOrderedField α] [FloorRing α] (x y : α) : Prop :=
  (x < 0 ↔ y < 0) ∧ ⌊|x| * 10 ^ 6⌋₊ = ⌊|y| * 10 ^ 6⌋₊

/-! ## Vocabulary of the specification for a fetch -/

/-- The list of candidate photos a metadata body yields. -/
def photosOf (Q : QtCodec Img) (body : QByteArray) : List QJsonValue :=
  (QJsonValue.lookup (Q.fromJson body).toObject "photos").toArray

/-- The thumbnail reference of a candidate photo; empty when it is missing. -/
def thumbnailOf (photo : QJsonValue) : String :=
  (QJsonValue.lookup photo.toObject "thumbnailUrl").toString

/-- The five error cases of the specification. -/
inductive FetchFailure where
  | metadataTransport (errorString : String)
  | noPhotos
  | noThumbnail
  | thumbnailTransport (photoUrl errorString : String)
  | undecodable (photoUrl : String)

/-- The message the failure notification carries. -/
def FetchFailure.message : FetchFailure → String
  | .metadataTransport errorString => errorString
  | .noPhotos => "No nearby OpenStreetCam image found."
  | .noThumbnail => "No valid OpenStreetCam image URL found."
  | .thumbnailTransport _ errorString => errorString
  | .undecodable _ => "Failed to load OpenStreetCam image."

/-- The thumbnail requests made before the failure: none for a failure of the
metadata stage, the one thumbnail request for a failure of the second stage. -/
def FetchFailure.thumbnailRequests : FetchFailure → List String
  | .thumbnailTransport photoUrl _ => [photoUrl]
  | .undecodable photoUrl => [photoUrl]
  | _ => []

/-- Which of the five error cases, if any, occurs in a fetch for
`(latitude, longitude)` over the network `net`. -/
def failureOf [QtNumberFormat D] (Q : QtCodec Img) (net : Network) (latitude longitude : D) :
    Option FetchFailure :=
  match net (buildApiUrl latitude longitude 15) with
  | .failed errorString => some (.metadataTransport errorString)
  | .ok body =>
    match photosOf Q body with
    | [] => some .noPhotos
    | photo :: _ =>
      if (thumbnailOf photo).isEmpty then some .noThumbnail
      else
        match net (thumbnailOf photo) with
        | .failed errorString => some (.thumbnailTransport (thumbnailOf photo) errorString)
        | .ok imgData =>
          if Q.isNull (Q.loadFromData imgData) then some (.undecodable (thumbnailOf photo))
          else none

/-! ## The distance of the specification -/

/-- The haversine term of the specification for two coordinates in degrees:
`sin²(dLat/2) + cos(lat1) * cos(lat2) * sin²(dLon/2)`, the angles converted
to radians. -/
noncomputable def specHaversineTerm (lat1 lon1 lat2 lon2 : ℝ) : ℝ :=
  Real.sin ((lat2 - lat1) * (Real.pi / 180) / 2) ^ 2 +
    Real.cos (lat1 * (Real.pi / 180)) * Real.cos (lat2 * (Real.pi / 180)) *
      Real.sin ((lon2 - lon1) * (Real.pi / 180) / 2) ^ 2

/-- The great-circle distance of the specification, with Earth radius
6,371,000 m: `2 * 6371000 * arcsin (sqrt a)`. -/
noncomputable def specHaversine (lat1 lon1 lat2 lon2 : ℝ) : ℝ :=
  2 * 6371000 * Real.arcsin (Real.sqrt (specHaversineTerm lat1 lon1 lat2 lon2))

/-! ## Theorems -/

section Distance

open Real

/-- A product of two cosines as a difference of squares of half-angle terms. -/
theorem cos_mul_cos_half (p q : ℝ) :
    cos p * cos q = cos ((p + q) / 2) ^ 2 - sin ((q - p) / 2) ^ 2 := by
  have hp : p = (p + q) / 2 - (q - p) / 2 := by ring
  have hq : q = (p + q) / 2 + (q - p) / 2 := by ring
  generalize (p + q) / 2 = u at hp hq ⊢
  generalize (q - p) / 2 = v at hp hq ⊢
  rw [hp, hq, cos_sub, cos_add]
  nlinarith [sin_sq_add_cos_sq u, sin_sq_add_cos_sq v]

/-- The haversine term is a convex combination of two squares that are at most
one. -/
theorem specHaversineTerm_eq (lat1 lon1 lat2 lon2 : ℝ) :
    specHaversineTerm lat1 lon1 lat2 lon2 =
      (1 - sin ((lon2 - lon1) * (π / 180) / 2) ^ 2) *
          sin ((lat2 - lat1) * (π / 180) / 2) ^ 2 +
        sin ((lon2 - lon1) * (π / 180) / 2) ^ 2 *
          cos ((lat1 + lat2) * (π / 180) / 2) ^ 2 := by
  unfold specHaversineTerm
  rw [cos_mul_cos_half]
  have e1 : (lat1 * (π / 180) + lat2 * (π / 180)) / 2 = (lat1 + lat2) * (π / 180) / 2 := by
    ring
  have e2 : (lat2 * (π / 180) - lat1 * (π / 180)) / 2 = (lat2 - lat1) * (π / 180) / 2 := by
    ring
  rw [e1, e2]
  ring

/-- The haversine term is never negative. -/
theorem specHaversineTerm_nonneg (lat1 lon1 lat2 lon2 : ℝ) :
    0 ≤ specHaversineTerm lat1 lon1 lat2 lon2 := by
  rw [specHaversineTerm_eq]
  have hs := sin_sq_le_one ((lon2 - lon1) * (π / 180) / 2)
  have h1 := sq_nonneg (sin ((lon2 - lon1) * (π / 180) / 2))
  have h2 := sq_nonneg (sin ((lat2 - lat1) * (π / 180) / 2))
  have h3 := sq_nonneg (cos ((lat1 + lat2) * (π / 180) / 2))
  have := mul_nonneg (sub_nonneg.mpr hs) h2
  have := mul_nonneg h1 h3
  linarith

/-- The haversine term never exceeds one. -/
theorem specHaversineTerm_le_one (lat1 lon1 lat2 lon2 : ℝ) :
    specHaversineTerm lat1 lon1 lat2 lon2 ≤ 1 := by
  rw [specHaversineTerm_eq]
  have hs := sin_sq_le_one ((lon2 - lon1) * (π / 180) / 2)
  have h1 := sq_nonneg (sin ((lon2 - lon1) * (π / 180) / 2))
  have h2 := sin_sq_le_one ((lat2 - lat1) * (π / 180) / 2)
  have h3 := cos_sq_le_one ((lat1 + lat2) * (π / 180) / 2)
  have := mul_le_mul_of_nonneg_left h2 (sub_nonneg.mpr hs)
  have := mul_le_mul_of_nonneg_left h3 h1
  linarith

/-- On the unit circle, in the right half plane, the argument is the arcsine
of the ordinate. -/
theorem arg_sqrt_sqrt (a : ℝ) (h0 : 0 ≤ a) (h1 : a ≤ 1) :
    Complex.arg ⟨√(1 - a), √a⟩ = arcsin (√a) := by
  rw [Complex.arg_of_re_nonneg (by simp)]
  have habs : Complex.abs ⟨√(1 - a), √a⟩ = 1 := by
    rw [Complex.abs_apply, Complex.normSq_mk, Real.mul_self_sqrt (by linarith),
      Real.mul_self_sqrt h0]
    simp
  rw [habs]
  simp

/-- The code computes the haversine term of the specification. -/
theorem distanceMoved_term (self : StreetViewLandscape ℝ) (lat lon : ℝ) :
    distanceMoved realMath self lat lon =
      6371000 * (2 * Complex.arg
        ⟨√(1 - specHaversineTerm self.lastLat self.lastLon lat lon),
          √(specHaversineTerm self.lastLat self.lastLon lat lon)⟩) := by
  have e : sin ((lat - self.lastLat) * (π / 180) / 2) *
        sin ((lat - self.lastLat) * (π / 180) / 2) +
      cos (self.lastLat * (π / 180)) * cos (lat * (π / 180)) *
        sin ((lon - self.lastLon) * (π / 180) / 2) *
        sin ((lon - self.lastLon) * (π / 180) / 2) =
      specHaversineTerm self.lastLat self.lastLon lat lon := by
    unfold specHaversineTerm
    ring
  simp only [distanceMoved, realMath, e]

/-- The code's distance is the haversine distance of the specification. -/
theorem distanceMoved_eq_spec (self : StreetViewLandscape ℝ) (lat lon : ℝ) :
    distanceMoved realMath self lat lon = specHaversine self.lastLat self.lastLon lat lon := by
  rw [distanceMoved_term, arg_sqrt_sqrt _ (specHaversineTerm_nonneg _ _ _ _)
    (specHaversineTerm_le_one _ _ _ _)]
  unfold specHaversine
  ring

/-- When the haversine term is `sin² t` for a `t` between `0` and `π/2`, the
distance is `2 * 6371000 * t`. -/
theorem specHaversine_of_term (lat1 lon1 lat2 lon2 t : ℝ)
    (h : specHaversineTerm lat1 lon1 lat2 lon2 = sin t ^ 2) (h0 : 0 ≤ t) (h1 : t ≤ π / 2) :
    specHaversine lat1 lon1 lat2 lon2 = 2 * 6371000 * t := by
  unfold specHaversine
  rw [h, Real.sqrt_sq (sin_nonneg_of_nonneg_of_le_pi h0 (by linarith [pi_pos])),
    arcsin_sin (by linarith [pi_pos]) h1]

/-- The haversine distance is symmetric in its two coordinates. -/
theorem specHaversine_comm (lat1 lon1 lat2 lon2 : ℝ) :
    specHaversine lat1 lon1 lat2 lon2 = specHaversine lat2 lon2 lat1 lon1 := by
  have h : specHaversineTerm lat1 lon1 lat2 lon2 = specHaversineTerm lat2 lon2 lat1 lon1 := by
    unfold specHaversineTerm
    have e1 : (lat1 - lat2) * (π / 180) / 2 = -((lat2 - lat1) * (π / 180) / 2) := by ring
    have e2 : (lon1 - lon2) * (π / 180) / 2 = -((lon2 - lon1) * (π / 180) / 2) := by ring
    rw [e1, e2, sin_neg, sin_neg]
    ring
  unfold specHaversine
  rw [h]

/-- Distance from `(0, 0)` to a point `(0, lon)` on the equator, for
`0 ≤ lon ≤ 180`: the arc `6371000 * lon * π / 180`. -/
theorem distanceMoved_equator (cacheDir : String) (m lon : ℝ) (h0 : 0 ≤ lon)
    (h1 : lon ≤ 180) :
    distanceMoved realMath ⟨cacheDir, 0, 0, m⟩ 0 lon = 6371000 * lon * π / 180 := by
  rw [distanceMoved_eq_spec,
    specHaversine_of_term 0 0 0 lon (lon * (π / 180) / 2) (by simp [specHaversineTerm])
      (by positivity) (by nlinarith [pi_pos])]
  ring

/-- Distance from `(0, 0)` to a point `(lat, 0)` on the zero meridian, for
`0 ≤ lat ≤ 180`: the arc `6371000 * lat * π / 180`. -/
theorem distanceMoved_meridian (cacheDir : String) (m lat : ℝ) (h0 : 0 ≤ lat)
    (h1 : lat ≤ 180) :
    distanceMoved realMath ⟨cacheDir, 0, 0, m⟩ lat 0 = 6371000 * lat * π / 180 := by
  rw [distanceMoved_eq_spec,
    specHaversine_of_term 0 0 lat 0 (lat * (π / 180) / 2) (by simp [specHaversineTerm])
      (by positivity) (by nlinarith [pi_pos])]
  ring

/-- The formula read over the reals: for every last coordinate and every
sample in degrees, the haversine term `a` lies in `[0, 1]` and the formula of
`distanceMoved` has the value `2 * 6371000 * arcsin (sqrt a)`. This is a fact
about exact arithmetic; in `double` arithmetic the term can round above 1. -/
theorem distanceMoved_eq_haversine (self : StreetViewLandscape ℝ) (lat lon : ℝ) :
    0 ≤ specHaversineTerm self.lastLat self.lastLon lat lon ∧
    specHaversineTerm self.lastLat self.lastLon lat lon ≤ 1 ∧
    distanceMoved realMath self lat lon =
      2 * 6371000 * arcsin (√(specHaversineTerm self.lastLat self.lastLon lat lon)) :=
  ⟨specHaversineTerm_nonneg _ _ _ _, specHaversineTerm_le_one _ _ _ _,
    distanceMoved_eq_spec self lat lon⟩

/-- The formula read over the reals is symmetric: with `a` as last coordinate
and `b` as sample it has the same value as with `b` as last coordinate and
`a` as sample. This is a fact about exact arithmetic. -/
theorem distanceMoved_symm (a b : StreetViewLandscape ℝ) :
    distanceMoved realMath a b.lastLat b.lastLon =
      distanceMoved realMath b a.lastLat a.lastLon := by
  rw [distanceMoved_eq_spec, distanceMoved_eq_spec, specHaversine_comm]

/-- C10: over the reals the distance from `(0, 0)` to `(0.001, 0)` is exactly
`6371000 * 0.001 * π / 180`, which is within one metre of 111. -/
theorem distanceMoved_fixture_111 (cacheDir : String) (m : ℝ) :
    distanceMoved realMath ⟨cacheDir, 0, 0, m⟩ 0.001 0 = 6371000 * 0.001 * π / 180 ∧
    |distanceMoved realMath ⟨cacheDir, 0, 0, m⟩ 0.001 0 - 111| < 1 := by
  have h := distanceMoved_meridian cacheDir m 0.001 (by norm_num) (by norm_num)
  refine ⟨h, ?_⟩
  rw [h, abs_lt]
  constructor <;> nlinarith [pi_gt_d6, pi_lt_d6]

end Distance

section Gate

variable {D : Type} [Add D] [Sub D] [Mul D] [Div D] [OfNat D 1] [OfNat D 2] [OfNat D 6371000]
  [LT D] [∀ a b : D, Decidable (a < b)] [QtNumberFormat D] {Img : Type}

/-- A sample for which the guard `distanceMoved < minDistance` holds changes
nothing and has no effect. -/
theorem onPositionUpdated_rejected (M : QtMath D) (Q : QtCodec Img)
    (self : StreetViewLandscape D) (fs : FileSystem) (lat lon : D)
    (h : distanceMoved M self lat lon < self.minDistance) :
    onPositionUpdated M Q self fs lat lon = { self := self, effects := [], fetch := none } := by
  simp [onPositionUpdated, h]

/-- The session a sample leaves for which the guard is false. -/
theorem onPositionUpdated_accepted_self (M : QtMath D) (Q : QtCodec Img)
    (self : StreetViewLandscape D) (fs : FileSystem) (lat lon : D)
    (h : ¬ distanceMoved M self lat lon < self.minDistance) :
    (onPositionUpdated M Q self fs lat lon).self =
      { self with lastLat := lat, lastLon := lon } := by
  unfold onPositionUpdated
  rw [if_neg h]
  dsimp only
  split <;> rfl

/-- C1 (as amended): for every number type, NaN included: when the guard
`distanceMoved < minDistance` holds, the whole session is unchanged, nothing
is emitted and no fetch is started; when it does not hold, the sample becomes
the last coordinate; the threshold and the cache directory never change.
Hence the last coordinate equals the sample afterwards exactly when the
guard is false or the sample already was the last coordinate. -/
theorem onPositionUpdated_gate (M : QtMath D) (Q : QtCodec Img)
    (self : StreetViewLandscape D) (fs : FileSystem) (lat lon : D) :
    (¬ distanceMoved M self lat lon < self.minDistance →
      (onPositionUpdated M Q self fs lat lon).self.lastLat = lat ∧
      (onPositionUpdated M Q self fs lat lon).self.lastLon = lon) ∧
    (distanceMoved M self lat lon < self.minDistance →
      (onPositionUpdated M Q self fs lat lon).self = self ∧
      (onPositionUpdated M Q self fs lat lon).effects = [] ∧
      (onPositionUpdated M Q self fs lat lon).fetch = none) ∧
    (onPositionUpdated M Q self fs lat lon).self.minDistance = self.minDistance ∧
    (onPositionUpdated M Q self fs lat lon).self.cacheDir = self.cacheDir ∧
    (((onPositionUpdated M Q self fs lat lon).self.lastLat = lat ∧
      (onPositionUpdated M Q self fs lat lon).self.lastLon = lon) ↔
      (¬ distanceMoved M self lat lon < self.minDistance ∨
        (self.lastLat = lat ∧ self.lastLon = lon))) := by
  by_cases h : distanceMoved M self lat lon < self.minDistance
  · rw [onPositionUpdated_rejected M Q self fs lat lon h]
    refine ⟨fun h2 => absurd h h2, fun _ => ⟨rfl, rfl, rfl⟩, rfl, rfl, ?_⟩
    constructor
    · intro h2
      exact Or.inr h2
    · rintro (h2 | h2)
      · exact absurd h h2
      · exact h2
  · rw [onPositionUpdated_accepted_self M Q self fs lat lon h]
    exact ⟨fun _ => ⟨rfl, rfl⟩, fun h2 => absurd h2 h, rfl, rfl,
      fun _ => Or.inl h, fun _ => ⟨rfl, rfl⟩⟩

/-- In an ordered field the guard is false exactly when the distance meets or
exceeds the threshold. -/
theorem guard_false_iff_le {α : Type} [LinearOrderedField α] (M : QtMath α)
    (self : StreetViewLandscape α) (lat lon : α) :
    ¬ distanceMoved M self lat lon < self.minDistance ↔
      self.minDistance ≤ distanceMoved M self lat lon :=
  not_lt

/-- C1 (counterexample): with last coordinate `(0, 0)` and threshold 100, the
sample `(0, 0)` is at distance 0, below the threshold, and is rejected; the
last coordinate still equals the sample afterwards. -/
theorem onPositionUpdated_repeated_sample :
    ((onPositionUpdated realMath (fixtureCodec .null) (init "cache") (fun _ => none)
        (0 : ℝ) 0).self.lastLat = 0 ∧
      (onPositionUpdated realMath (fixtureCodec .null) (init "cache") (fun _ => none)
        (0 : ℝ) 0).self.lastLon = 0) ∧
    ¬ ((init "cache" : StreetViewLandscape ℝ).minDistance ≤
      distanceMoved realMath (init "cache") 0 0) := by
  have hd : distanceMoved realMath (init "cache") (0 : ℝ) 0 = 0 := by
    have h := distanceMoved_equator "cache" 100 0 le_rfl (by norm_num)
    simpa [init] using h
  have hlt : distanceMoved realMath (init "cache") (0 : ℝ) 0 <
      (init "cache" : StreetViewLandscape ℝ).minDistance := by
    rw [hd]
    norm_num [init]
  rw [onPositionUpdated_rejected _ _ _ _ _ _ hlt]
  exact ⟨⟨rfl, rfl⟩, not_le.mpr hlt⟩

/-- C9: with last coordinate `(0, 0)` and threshold 100 m, the sample
`(0, 0.0005)` is nearer than the threshold (within a metre of 55) and leaves
the session unchanged, while the sample `(0, 0.002)` is at or beyond the
threshold (within a metre of 222) and becomes the last coordinate. -/
theorem threshold_100_fixture (Q : QtCodec Img) (fs : FileSystem) (cacheDir : String) :
    distanceMoved realMath (init cacheDir) 0 0.0005 < 100 ∧
    |distanceMoved realMath (init cacheDir) 0 0.0005 - 55| < 1 ∧
    (onPositionUpdated realMath Q (init cacheDir) fs 0 0.0005).self = init cacheDir ∧
    (onPositionUpdated realMath Q (init cacheDir) fs 0 0.0005).effects = [] ∧
    (100 : ℝ) ≤ distanceMoved realMath (init cacheDir) 0 0.002 ∧
    |distanceMoved realMath (init cacheDir) 0 0.002 - 222| < 1 ∧
    (onPositionUpdated realMath Q (init cacheDir) fs 0 0.002).self =
      { cacheDir := cacheDir, lastLat := 0, lastLon := 0.002, minDistance := 100 } := by
  have h1 : distanceMoved realMath (init cacheDir) 0 0.0005 = 6371000 * 0.0005 * Real.pi / 180 :=
    distanceMoved_equator cacheDir 100 0.0005 (by norm_num) (by norm_num)
  have h2 : distanceMoved realMath (init cacheDir) 0 0.002 = 6371000 * 0.002 * Real.pi / 180 :=
    distanceMoved_equator cacheDir 100 0.002 (by norm_num) (by norm_num)
  have hlt : distanceMoved realMath (init cacheDir) 0 0.0005 < 100 := by
    rw [h1]
    nlinarith [Real.pi_lt_d6]
  have hge : (100 : ℝ) ≤ distanceMoved realMath (init cacheDir) 0 0.002 := by
    rw [h2]
    nlinarith [Real.pi_gt_d6]
  refine ⟨hlt, ?_, ?_, ?_, hge, ?_, ?_⟩
  · rw [h1, abs_lt]
    constructor <;> nlinarith [Real.pi_gt_d6, Real.pi_lt_d6]
  · rw [onPositionUpdated_rejected _ _ _ _ _ _ hlt]
  · rw [onPositionUpdated_rejected _ _ _ _ _ _ hlt]
  · rw [h2, abs_lt]
    constructor <;> nlinarith [Real.pi_gt_d6, Real.pi_lt_d6]
  · exact onPositionUpdated_accepted_self _ _ _ _ _ _ (not_lt.mpr hge)

end Gate

section Monitor

open Real

variable {D : Type} [Add D] [Sub D] [Mul D] [Div D] [OfNat D 1] [OfNat D 2] [OfNat D 6371000]
  [LT D] [∀ a b : D, Decidable (a < b)] [QtNumberFormat D] {Img : Type}

/-- The haversine distance from `(0, 0)` to `(10, 20)` is far beyond 100 m. -/
theorem distanceMoved_10_20 (cacheDir : String) (m : ℝ) :
    (100 : ℝ) ≤ distanceMoved realMath ⟨cacheDir, 0, 0, m⟩ 10 20 := by
  rw [distanceMoved_eq_spec]
  unfold specHaversine
  dsimp only
  have hpi := pi_gt_d6
  have hpi2 := pi_lt_d6
  have hc : 0 ≤ cos (10 * (π / 180)) :=
    cos_nonneg_of_neg_pi_div_two_le_of_le (by linarith) (by linarith)
  have hs : 0 ≤ sin (10 * (π / 180) / 2) :=
    sin_nonneg_of_nonneg_of_le_pi (by linarith) (by linarith)
  have hterm : sin (10 * (π / 180) / 2) ^ 2 ≤ specHaversineTerm 0 0 10 20 := by
    simp only [specHaversineTerm, sub_zero, zero_mul, cos_zero, one_mul]
    have := mul_nonneg hc (sq_nonneg (sin (20 * (π / 180) / 2)))
    linarith
  have hsqrt : sin (10 * (π / 180) / 2) ≤ √(specHaversineTerm 0 0 10 20) :=
    Real.le_sqrt_of_sq_le hterm
  have harc := monotone_arcsin hsqrt
  rw [arcsin_sin (by linarith) (by linarith)] at harc
  linarith

/-- C2: for an accepted sample (the guard `distanceMoved < minDistance` is
false), a cache hit emits only `imageReady` with the cached read and starts no
fetch (no request, no `loadingStarted`); a cache miss emits `loadingStarted`
and then calls `fetchImage` for the sample's coordinate, which issues the
metadata request. So a fetch is started exactly when the cache does not report
the coordinate as existing. -/
theorem onPositionUpdated_cache_or_fetch (M : QtMath D) (Q : QtCodec Img)
    (self : StreetViewLandscape D) (fs : FileSystem) (lat lon : D)
    (h : ¬ distanceMoved M self lat lon < self.minDistance) :
    (isImageCached self fs lat lon = true →
      (onPositionUpdated M Q self fs lat lon).effects =
        [.emit (.imageReady (getCachedImage Q self fs lat lon))] ∧
      (onPositionUpdated M Q self fs lat lon).fetch = none) ∧
    (isImageCached self fs lat lon = false →
      (onPositionUpdated M Q self fs lat lon).effects =
        [.emit .loadingStarted, .get (buildApiUrl lat lon 15)] ∧
      (onPositionUpdated M Q self fs lat lon).fetch =
        some { latitude := lat, longitude := lon }) ∧
    ((onPositionUpdated M Q self fs lat lon).fetch.isSome = true ↔
      isImageCached self fs lat lon = false) := by
  have hc : isImageCached { self with lastLat := lat, lastLon := lon } fs lat lon =
      isImageCached self fs lat lon := rfl
  have hg : getCachedImage Q { self with lastLat := lat, lastLon := lon } fs lat lon =
      getCachedImage Q self fs lat lon := rfl
  unfold onPositionUpdated
  rw [if_neg h]
  dsimp only
  rw [hc, hg]
  cases hcached : isImageCached self fs lat lon <;> simp [fetchImage]

/-- C2 (fixture): cache pre-populated for `(10, 20)`, session at `(0, 0)` with
threshold 100, sample `(10, 20)`: the sample is accepted and the only effect
is `imageReady` with the cached image. -/
theorem onPositionUpdated_cache_hit_fixture :
    (100 : ℝ) ≤ distanceMoved realMath (init "cache") 10 20 ∧
    (onPositionUpdated realMath (fixtureCodec .null) (init "cache")
      (Function.update (fun _ => none) (cacheFilePath (init "cache") (10 : ℝ) 20)
        (some [255, 216, 255])) 10 20).effects = [.emit (.imageReady [255, 216, 255])] ∧
    (onPositionUpdated realMath (fixtureCodec .null) (init "cache")
      (Function.update (fun _ => none) (cacheFilePath (init "cache") (10 : ℝ) 20)
        (some [255, 216, 255])) 10 20).fetch = none := by
  refine ⟨distanceMoved_10_20 "cache" 100, ?_⟩
  have h := (onPositionUpdated_cache_or_fetch realMath (fixtureCodec .null) (init "cache")
    (Function.update (fun _ => none) (cacheFilePath (init "cache") (10 : ℝ) 20)
      (some [255, 216, 255])) 10 20 (not_lt.mpr (distanceMoved_10_20 "cache" 100))).1
    (by simp [isImageCached])
  simpa [getCachedImage, fixtureCodec] using h

end Monitor

section Fetch

variable {D : Type} [QtNumberFormat D] {Img : Type}

/-- The metadata callback on a transport error. -/
theorem onReplyFinished_failed (Q : QtCodec Img) (errorString : String) :
    onReplyFinished Q (.failed errorString) = ([.emit (.loadingFailed errorString)], none) :=
  rfl

/-- The metadata callback on a body without photos. -/
theorem onReplyFinished_no_photos (Q : QtCodec Img) (body : QByteArray)
    (h : photosOf Q body = []) :
    onReplyFinished Q (.ok body) =
      ([.emit (.loadingFailed "No nearby OpenStreetCam image found.")], none) := by
  unfold photosOf at h
  simp only [onReplyFinished, h]

/-- The metadata callback on a body whose first photo has no thumbnail
reference. -/
theorem onReplyFinished_no_thumbnail (Q : QtCodec Img) (body : QByteArray)
    (photo : QJsonValue) (rest : List QJsonValue) (h : photosOf Q body = photo :: rest)
    (hurl : (thumbnailOf photo).isEmpty = true) :
    onReplyFinished Q (.ok body) =
      ([.emit (.loadingFailed "No valid OpenStreetCam image URL found.")], none) := by
  unfold photosOf at h
  unfold thumbnailOf at hurl
  simp only [onReplyFinished, h, hurl, if_true]

/-- The metadata callback on a body whose first photo has a thumbnail
reference: the thumbnail is requested. -/
theorem onReplyFinished_thumbnail (Q : QtCodec Img) (body : QByteArray)
    (photo : QJsonValue) (rest : List QJsonValue) (h : photosOf Q body = photo :: rest)
    (hurl : (thumbnailOf photo).isEmpty = false) :
    onReplyFinished Q (.ok body) = ([.get (thumbnailOf photo)], some (thumbnailOf photo)) := by
  unfold photosOf at h
  unfold thumbnailOf at hurl ⊢
  simp [onReplyFinished, h, hurl]

/-- A fetch whose two stages both succeed: the effects and the file system it
leaves. -/
theorem fetchImageCompleted_success (Q : QtCodec Img) (net : Network)
    (self : StreetViewLandscape D) (fs : FileSystem) (latitude longitude : D)
    (body imgData : QByteArray) (photo : QJsonValue) (rest : List QJsonValue)
    (hnet : net (buildApiUrl latitude longitude 15) = .ok body)
    (hphotos : photosOf Q body = photo :: rest)
    (hurl : (thumbnailOf photo).isEmpty = false)
    (himg : net (thumbnailOf photo) = .ok imgData)
    (hdec : Q.isNull (Q.loadFromData imgData) = false) :
    fetchImageCompleted Q net self fs latitude longitude =
      (compressAndStoreImage Q self fs (Q.loadFromData imgData) latitude longitude,
        [.get (buildApiUrl latitude longitude 15), .get (thumbnailOf photo),
          .save (cacheFilePath self latitude longitude) (Q.loadFromData imgData) 75,
          .emit (.imageReady (Q.loadFromData imgData))]) := by
  unfold fetchImageCompleted
  rw [hnet, onReplyFinished_thumbnail Q body photo rest hphotos hurl]
  simp [onImgReplyFinished, himg, hdec, fetchImage]

/-- A fetch in which one of the five error cases occurs: the effects and the
file system it leaves. -/
theorem fetchImageCompleted_failure (Q : QtCodec Img) (net : Network)
    (self : StreetViewLandscape D) (fs : FileSystem) (latitude longitude : D)
    (f : FetchFailure) (h : failureOf Q net latitude longitude = some f) :
    fetchImageCompleted Q net self fs latitude longitude =
      (fs, .get (buildApiUrl latitude longitude 15) ::
        (f.thumbnailRequests.map .get ++ [.emit (.loadingFailed f.message)])) := by
  unfold failureOf at h
  unfold fetchImageCompleted
  cases hnet : net (buildApiUrl latitude longitude 15) with
  | failed errorString =>
    rw [hnet] at h
    simp only [Option.some.injEq] at h
    subst h
    simp [onReplyFinished_failed, fetchImage, FetchFailure.thumbnailRequests,
      FetchFailure.message]
  | ok body =>
    rw [hnet] at h
    dsimp only at h
    cases hphotos : photosOf Q body with
    | nil =>
      rw [hphotos] at h
      simp only [Option.some.injEq] at h
      subst h
      simp [onReplyFinished_no_photos Q body hphotos, fetchImage,
        FetchFailure.thumbnailRequests, FetchFailure.message]
    | cons photo rest =>
      rw [hphotos] at h
      dsimp only at h
      cases hurl : (thumbnailOf photo).isEmpty with
      | true =>
        rw [hurl] at h
        simp only [if_true, Option.some.injEq] at h
        subst h
        simp [onReplyFinished_no_thumbnail Q body photo rest hphotos hurl, fetchImage,
          FetchFailure.thumbnailRequests, FetchFailure.message]
      | false =>
        rw [hurl] at h
        simp only [Bool.false_eq_true, if_false] at h
        rw [onReplyFinished_thumbnail Q body photo rest hphotos hurl]
        cases himg : net (thumbnailOf photo) with
        | failed errorString =>
          rw [himg] at h
          simp only [Option.some.injEq] at h
          subst h
          simp [onImgReplyFinished, himg, fetchImage, FetchFailure.thumbnailRequests,
            FetchFailure.message]
        | ok imgData =>
          rw [himg] at h
          dsimp only at h
          cases hdec : Q.isNull (Q.loadFromData imgData) with
          | true =>
            rw [hdec] at h
            simp only [if_true, Option.some.injEq] at h
            subst h
            simp [onImgReplyFinished, himg, hdec, fetchImage, FetchFailure.thumbnailRequests,
              FetchFailure.message]
          | false =>
            rw [hdec] at h
            simp at h

/-- A fetch in which none of the five error cases occurs succeeds: there are a
thumbnail URL and a decoded, non-null image with the effects of a
success. -/
theorem fetchImageCompleted_none (Q : QtCodec Img) (net : Network)
    (self : StreetViewLandscape D) (fs : FileSystem) (latitude longitude : D)
    (h : failureOf Q net latitude longitude = none) :
    ∃ (photoUrl : String) (img : Img), Q.isNull img = false ∧
      fetchImageCompleted Q net self fs latitude longitude =
        (compressAndStoreImage Q self fs img latitude longitude,
          [.get (buildApiUrl latitude longitude 15), .get photoUrl,
            .save (cacheFilePath self latitude longitude) img 75,
            .emit (.imageReady img)]) := by
  unfold failureOf at h
  cases hnet : net (buildApiUrl latitude longitude 15) with
  | failed errorString =>
    rw [hnet] at h
    simp at h
  | ok body =>
    rw [hnet] at h
    dsimp only at h
    cases hphotos : photosOf Q body with
    | nil =>
      rw [hphotos] at h
      simp at h
    | cons photo rest =>
      rw [hphotos] at h
      dsimp only at h
      cases hurl : (thumbnailOf photo).isEmpty with
      | true =>
        rw [hurl] at h
        simp at h
      | false =>
        rw [hurl] at h
        simp only [Bool.false_eq_true, if_false] at h
        cases himg : net (thumbnailOf photo) with
        | failed errorString =>
          rw [himg] at h
          simp at h
        | ok imgData =>
          rw [himg] at h
          dsimp only at h
          cases hdec : Q.isNull (Q.loadFromData imgData) with
          | true =>
            rw [hdec] at h
            simp at h
          | false =>
            exact ⟨thumbnailOf photo, Q.loadFromData imgData, hdec,
              fetchImageCompleted_success Q net self fs latitude longitude body imgData photo
                rest hnet hphotos hurl himg hdec⟩

/-- The signals of a failed fetch. -/
theorem signals_failure (url : String) (f : FetchFailure) :
    signals (Effect.get url ::
      (f.thumbnailRequests.map Effect.get ++ [Effect.emit (Signal.loadingFailed f.message)]) :
        List (Effect Img)) = [.loadingFailed f.message] := by
  cases f <;> simp [signals, FetchFailure.thumbnailRequests]

/-- The requests of a failed fetch. -/
theorem requests_failure (url : String) (f : FetchFailure) :
    requests (Effect.get url ::
      (f.thumbnailRequests.map Effect.get ++ [Effect.emit (Signal.loadingFailed f.message)]) :
        List (Effect Img)) = url :: f.thumbnailRequests := by
  cases f <;> simp [requests, FetchFailure.thumbnailRequests]

/-- The writes of a failed fetch. -/
theorem writes_failure (url : String) (f : FetchFailure) :
    writes (Effect.get url ::
      (f.thumbnailRequests.map Effect.get ++ [Effect.emit (Signal.loadingFailed f.message)]) :
        List (Effect Img)) = [] := by
  cases f <;> simp [writes, FetchFailure.thumbnailRequests]

/-- C6: when the metadata request succeeds at the transport level and its
body yields an empty list of photos, the fetch consists of the metadata
request followed by `loadingFailed("No nearby OpenStreetCam image found.")`:
no other signal, no thumbnail request, no file write, the file system
unchanged. -/
theorem fetchImageCompleted_no_photos (Q : QtCodec Img) (net : Network)
    (self : StreetViewLandscape D) (fs : FileSystem) (latitude longitude : D)
    (body : QByteArray) (hnet : net (buildApiUrl latitude longitude 15) = .ok body)
    (hphotos : photosOf Q body = []) :
    fetchImageCompleted Q net self fs latitude longitude =
      (fs, [.get (buildApiUrl latitude longitude 15),
        .emit (.loadingFailed "No nearby OpenStreetCam image found.")]) ∧
    signals (fetchImageCompleted Q net self fs latitude longitude).2 =
      [.loadingFailed "No nearby OpenStreetCam image found."] ∧
    requests (fetchImageCompleted Q net self fs latitude longitude).2 =
      [buildApiUrl latitude longitude 15] ∧
    writes (fetchImageCompleted Q net self fs latitude longitude).2 = [] := by
  have h : fetchImageCompleted Q net self fs latitude longitude =
      (fs, [.get (buildApiUrl latitude longitude 15),
        .emit (.loadingFailed "No nearby OpenStreetCam image found.")]) := by
    unfold fetchImageCompleted
    rw [hnet, onReplyFinished_no_photos Q body hphotos]
    rfl
  rw [h]
  exact ⟨rfl, rfl, rfl, rfl⟩

/-- C6 (fixture): the metadata endpoint answers every request with the body
`{"photos": []}`; the fetch for `(10, 20)` emits exactly the "no nearby
image" failure and requests nothing but the metadata. -/
theorem empty_photos_fixture :
    photosOf (fixtureCodec (.object [("photos", .array [])]))
      [123, 34, 112, 104, 111, 116, 111, 115, 34, 58, 32, 91, 93, 125] = [] ∧
    signals (fetchImageCompleted (fixtureCodec (.object [("photos", .array [])]))
      (fun _ => .ok [123, 34, 112, 104, 111, 116, 111, 115, 34, 58, 32, 91, 93, 125])
      (init "cache") (fun _ => none) (10 : ℚ) 20).2 =
      [.loadingFailed "No nearby OpenStreetCam image found."] ∧
    requests (fetchImageCompleted (fixtureCodec (.object [("photos", .array [])]))
      (fun _ => .ok [123, 34, 112, 104, 111, 116, 111, 115, 34, 58, 32, 91, 93, 125])
      (init "cache") (fun _ => none) (10 : ℚ) 20).2 = [buildApiUrl (10 : ℚ) 20 15] :=
  ⟨rfl,
    (fetchImageCompleted_no_photos (fixtureCodec (.object [("photos", .array [])]))
      (fun _ => .ok [123, 34, 112, 104, 111, 116, 111, 115, 34, 58, 32, 91, 93, 125])
      (init "cache") (fun _ => none) (10 : ℚ) 20
      [123, 34, 112, 104, 111, 116, 111, 115, 34, 58, 32, 91, 93, 125] rfl rfl).2.1,
    (fetchImageCompleted_no_photos (fixtureCodec (.object [("photos", .array [])]))
      (fun _ => .ok [123, 34, 112, 104, 111, 116, 111, 115, 34, 58, 32, 91, 93, 125])
      (init "cache") (fun _ => none) (10 : ℚ) 20
      [123, 34, 112, 104, 111, 116, 111, 115, 34, 58, 32, 91, 93, 125] rfl rfl).2.2.1⟩

/-- C7: every completed fetch emits exactly one signal. If one of the five
error cases occurs, that signal is `loadingFailed` with the message of the
case, it is the last effect of the fetch, the only requests are the metadata
request and (for a failure of the second stage) the one thumbnail request,
nothing is written and the file system is unchanged. `imageReady` is emitted
exactly when none of the five error cases occurs. -/
theorem fetchImageCompleted_terminal (Q : QtCodec Img) (net : Network)
    (self : StreetViewLandscape D) (fs : FileSystem) (latitude longitude : D) :
    (signals (fetchImageCompleted Q net self fs latitude longitude).2).length = 1 ∧
    (∀ f : FetchFailure, failureOf Q net latitude longitude = some f →
      (fetchImageCompleted Q net self fs latitude longitude).1 = fs ∧
      signals (fetchImageCompleted Q net self fs latitude longitude).2 =
        [.loadingFailed f.message] ∧
      requests (fetchImageCompleted Q net self fs latitude longitude).2 =
        buildApiUrl latitude longitude 15 :: f.thumbnailRequests ∧
      writes (fetchImageCompleted Q net self fs latitude longitude).2 = [] ∧
      (fetchImageCompleted Q net self fs latitude longitude).2.getLast? =
        some (.emit (.loadingFailed f.message))) ∧
    ((∃ img : Img, Signal.imageReady img ∈
        signals (fetchImageCompleted Q net self fs latitude longitude).2) ↔
      failureOf Q net latitude longitude = none) := by
  cases hf : failureOf Q net latitude longitude with
  | none =>
    obtain ⟨photoUrl, img, -, hrun⟩ :=
      fetchImageCompleted_none Q net self fs latitude longitude hf
    rw [hrun]
    refine ⟨rfl, fun f hf2 => by simp at hf2, ?_⟩
    simp [signals]
  | some f =>
    rw [fetchImageCompleted_failure Q net self fs latitude longitude f hf]
    dsimp only
    rw [signals_failure, requests_failure, writes_failure]
    refine ⟨rfl, ?_, ?_⟩
    · intro g hg
      simp only [Option.some.injEq] at hg
      subst hg
      refine ⟨rfl, rfl, rfl, rfl, ?_⟩
      cases f <;> simp [FetchFailure.thumbnailRequests]
    · simp

/-- C8 (as amended): when the metadata yields a first photo with a non-empty
thumbnail URL and the thumbnail downloads and decodes to a non-null image, the
fetch for `(latitude, longitude)` calls `save` for that image on the cache
file of `(latitude, longitude)`, whatever the last coordinate of the session
is by then, and emits `imageReady` with it afterwards; if that save succeeds,
the file holds the bytes written, `isImageCached` holds for
`(latitude, longitude)` in the file system the fetch leaves, and every other
file is as before. -/
theorem fetchImageCompleted_stores (Q : QtCodec Img) (net : Network)
    (self : StreetViewLandscape D) (fs : FileSystem) (latitude longitude : D)
    (body imgData : QByteArray) (photo : QJsonValue) (rest : List QJsonValue)
    (hnet : net (buildApiUrl latitude longitude 15) = .ok body)
    (hphotos : photosOf Q body = photo :: rest)
    (hurl : (thumbnailOf photo).isEmpty = false)
    (himg : net (thumbnailOf photo) = .ok imgData)
    (hdec : Q.isNull (Q.loadFromData imgData) = false) :
    (fetchImageCompleted Q net self fs latitude longitude).2 =
      [.get (buildApiUrl latitude longitude 15), .get (thumbnailOf photo),
        .save (cacheFilePath self latitude longitude) (Q.loadFromData imgData) 75,
        .emit (.imageReady (Q.loadFromData imgData))] ∧
    (∀ bytes : QByteArray,
      Q.saveJpg (cacheFilePath self latitude longitude) (Q.loadFromData imgData) 75 =
        some bytes →
      (fetchImageCompleted Q net self fs latitude longitude).1
        (cacheFilePath self latitude longitude) = some bytes ∧
      isImageCached self (fetchImageCompleted Q net self fs latitude longitude).1
        latitude longitude = true ∧
      (∀ path : String, path ≠ cacheFilePath self latitude longitude →
        (fetchImageCompleted Q net self fs latitude longitude).1 path = fs path)) := by
  rw [fetchImageCompleted_success Q net self fs latitude longitude body imgData photo rest hnet
    hphotos hurl himg hdec]
  refine ⟨rfl, ?_⟩
  intro bytes hsave
  refine ⟨?_, ?_, ?_⟩
  · simp [compressAndStoreImage, hsave]
  · simp [isImageCached, compressAndStoreImage, hsave]
  · intro path hpath
    simp [compressAndStoreImage, hsave, Function.update_noteq hpath]

/-- C8 (fixture): the metadata names one photo with a thumbnail URL, the
thumbnail decodes and the save succeeds; starting from an empty cache, the
fetch for `(10, 20)` saves the image and then emits `imageReady`, and the
cache then reports `(10, 20)` as existing. -/
theorem fetch_success_fixture :
    isImageCached (init "cache") (fun _ => none) (10 : ℚ) 20 = false ∧
    signals (fetchImageCompleted
      (fixtureCodec (.object [("photos", .array [.object [("thumbnailUrl", .string "t.jpg")]])]))
      (fun _ => .ok [255, 216, 255]) (init "cache") (fun _ => none) (10 : ℚ) 20).2 =
      [.imageReady [255, 216, 255]] ∧
    isImageCached (init "cache") (fetchImageCompleted
      (fixtureCodec (.object [("photos", .array [.object [("thumbnailUrl", .string "t.jpg")]])]))
      (fun _ => .ok [255, 216, 255]) (init "cache") (fun _ => none) (10 : ℚ) 20).1
      (10 : ℚ) 20 = true := by
  have h := fetchImageCompleted_stores
    (fixtureCodec (.object [("photos", .array [.object [("thumbnailUrl", .string "t.jpg")]])]))
    (fun _ => .ok [255, 216, 255]) (init "cache") (fun _ => none) (10 : ℚ) 20
    [255, 216, 255] [255, 216, 255] (.object [("thumbnailUrl", .string "t.jpg")]) []
    rfl rfl (by decide) rfl rfl
  refine ⟨rfl, ?_, (h.2 [255, 216, 255] rfl).2.1⟩
  rw [h.1]
  rfl

/-- C8 (counterexample): every reply of the network carries the bytes
`[255, 216, 255]`; as a metadata body they yield one photo with a thumbnail
URL, as a thumbnail they decode to a non-null image, but the cache directory
cannot be written, so `save` fails; the fetch for `(10, 20)` still emits
`imageReady` with the image, and afterwards the cache does not report
`(10, 20)` as existing. -/
theorem fetch_success_save_fails :
    photosOf
      (readOnlyCodec (.object [("photos", .array [.object [("thumbnailUrl", .string "t.jpg")]])]))
      [255, 216, 255] = [.object [("thumbnailUrl", .string "t.jpg")]] ∧
    (thumbnailOf (.object [("thumbnailUrl", .string "t.jpg")])).isEmpty = false ∧
    (readOnlyCodec .null).isNull ((readOnlyCodec .null).loadFromData [255, 216, 255]) = false ∧
    (readOnlyCodec .null).saveJpg (cacheFilePath (init "cache") (10 : ℚ) 20) [255, 216, 255] 75 =
      none ∧
    signals (fetchImageCompleted
      (readOnlyCodec (.object [("photos", .array [.object [("thumbnailUrl", .string "t.jpg")]])]))
      (fun _ => .ok [255, 216, 255]) (init "cache") (fun _ => none) (10 : ℚ) 20).2 =
      [.imageReady [255, 216, 255]] ∧
    isImageCached (init "cache") (fetchImageCompleted
      (readOnlyCodec (.object [("photos", .array [.object [("thumbnailUrl", .string "t.jpg")]])]))
      (fun _ => .ok [255, 216, 255]) (init "cache") (fun _ => none) (10 : ℚ) 20).1
      (10 : ℚ) 20 = false := by
  have h := fetchImageCompleted_success
    (readOnlyCodec (.object [("photos", .array [.object [("thumbnailUrl", .string "t.jpg")]])]))
    (fun _ => .ok [255, 216, 255]) (init "cache") (fun _ => none) (10 : ℚ) 20
    [255, 216, 255] [255, 216, 255] (.object [("thumbnailUrl", .string "t.jpg")]) []
    rfl rfl (by decide) rfl rfl
  refine ⟨rfl, by decide, rfl, rfl, ?_, ?_⟩
  · rw [h]
    rfl
  · rw [h]
    rfl

end Fetch

section CacheKey

variable {α : Type} [LinearOrderedField α] [FloorRing α]

/-- In an ordered field the cache key is made of the two `formatF6` texts. -/
theorem cacheKey_eq_formatF6 (latitude longitude : α) :
    cacheKey latitude longitude = formatF6 latitude ++ "_" ++ formatF6 longitude :=
  rfl

/-- The formatted text of a number whose magnitude, in units of `10⁻⁶`, lies
in the half-open interval of width one centred at `n`. -/
theorem formatF6_of_bucket (x : α) (n : ℕ) (h1 : (n : α) - 1 / 2 ≤ |x| * 10 ^ 6)
    (h2 : |x| * 10 ^ 6 < n + 1 / 2) :
    formatF6 x =
      (if x < 0 then "-" else "") ++ Nat.repr (n / 10 ^ 6) ++ "." ++ pad6 (n % 10 ^ 6) := by
  have h : ⌊|x| * 10 ^ 6 + 1 / 2⌋₊ = n :=
    (Nat.floor_eq_iff (by positivity)).mpr ⟨by linarith, by linarith⟩
  simp only [formatF6, h]

/-- The formatted text of a non-negative number in the bucket of `n`. -/
theorem formatF6_of_nonneg (x : α) (n : ℕ) (h0 : 0 ≤ x) (h1 : (n : α) - 1 / 2 ≤ x * 10 ^ 6)
    (h2 : x * 10 ^ 6 < n + 1 / 2) :
    formatF6 x = Nat.repr (n / 10 ^ 6) ++ "." ++ pad6 (n % 10 ^ 6) := by
  rw [formatF6_of_bucket x n (by rwa [abs_of_nonneg h0]) (by rwa [abs_of_nonneg h0]),
    if_neg (not_lt.mpr h0)]
  rfl

/-- Numbers of the same sign in the same bucket have the same formatted
text. -/
theorem formatF6_congr (x y : α) (n : ℕ) (hs : x < 0 ↔ y < 0)
    (hx : (n : α) - 1 / 2 ≤ |x| * 10 ^ 6 ∧ |x| * 10 ^ 6 < n + 1 / 2)
    (hy : (n : α) - 1 / 2 ≤ |y| * 10 ^ 6 ∧ |y| * 10 ^ 6 < n + 1 / 2) :
    formatF6 x = formatF6 y := by
  rw [formatF6_of_bucket x n hx.1 hx.2, formatF6_of_bucket y n hy.1 hy.2]
  by_cases h : x < 0
  · rw [if_pos h, if_pos (hs.mp h)]
  · rw [if_neg h, if_neg (fun h2 => h (hs.mpr h2))]

/-- C5 (as amended): two coordinates whose latitudes have the same sign and
round to the same multiple `i` of `10⁻⁶`, and whose longitudes have the same
sign and round to the same multiple `j` of `10⁻⁶`, have the same cache key and,
for a fixed cache directory, the same cache file path. -/
theorem cacheFilePath_same_bucket (self : StreetViewLandscape α) (lat1 lon1 lat2 lon2 : α)
    (i j : ℕ) (hlat : lat1 < 0 ↔ lat2 < 0) (hlon : lon1 < 0 ↔ lon2 < 0)
    (h1 : (i : α) - 1 / 2 ≤ |lat1| * 10 ^ 6 ∧ |lat1| * 10 ^ 6 < i + 1 / 2)
    (h2 : (i : α) - 1 / 2 ≤ |lat2| * 10 ^ 6 ∧ |lat2| * 10 ^ 6 < i + 1 / 2)
    (h3 : (j : α) - 1 / 2 ≤ |lon1| * 10 ^ 6 ∧ |lon1| * 10 ^ 6 < j + 1 / 2)
    (h4 : (j : α) - 1 / 2 ≤ |lon2| * 10 ^ 6 ∧ |lon2| * 10 ^ 6 < j + 1 / 2) :
    cacheKey lat1 lon1 = cacheKey lat2 lon2 ∧
    cacheFilePath self lat1 lon1 = cacheFilePath self lat2 lon2 := by
  have hk : cacheKey lat1 lon1 = cacheKey lat2 lon2 := by
    rw [cacheKey_eq_formatF6, cacheKey_eq_formatF6, formatF6_congr lat1 lat2 i hlat h1 h2,
      formatF6_congr lon1 lon2 j hlon h3 h4]
  refine ⟨hk, ?_⟩
  unfold cacheFilePath
  rw [hk]

/-- The cache key of `(1.0000001, 2.0000002)`. -/
theorem cacheKey_fixture_first : cacheKey (1.0000001 : ℚ) 2.0000002 = "1.000000_2.000000" := by
  rw [cacheKey_eq_formatF6]
  rw [formatF6_of_nonneg _ 1000000 (by norm_num) (by norm_num) (by norm_num),
    formatF6_of_nonneg _ 2000000 (by norm_num) (by norm_num) (by norm_num)]
  decide

/-- C5 (fixture): `(1.0000001, 2.0000002)` and `(1.0000004, 2.0000003)` have
the same cache key, `1.000000_2.000000`, and the same cache file. -/
theorem cacheFilePath_fixture :
    cacheKey (1.0000001 : ℚ) 2.0000002 = "1.000000_2.000000" ∧
    cacheKey (1.0000001 : ℚ) 2.0000002 = cacheKey (1.0000004 : ℚ) 2.0000003 ∧
    cacheFilePath (init "cache") (1.0000001 : ℚ) 2.0000002 =
      cacheFilePath (init "cache") (1.0000004 : ℚ) 2.0000003 :=
  ⟨cacheKey_fixture_first,
    cacheFilePath_same_bucket (init "cache") (1.0000001 : ℚ) 2.0000002 1.0000004 2.0000003
      1000000 2000000 (by norm_num) (by norm_num) (by norm_num [abs_of_pos])
      (by norm_num [abs_of_pos]) (by norm_num [abs_of_pos]) (by norm_num [abs_of_pos])⟩

/-- C5 (counterexample): the latitudes `1 + 1/2²²` (1.00000023…) and
`1 + 3/2²²` (1.00000071…) agree in their first six decimals, yet with the same
longitude `2` their cache keys are `1.000000_2.000000` and
`1.000001_2.000000`, and the cache files differ. -/
theorem cacheFilePath_rounds_apart :
    agreeToSixDecimals (1 + 1 / 2 ^ 22 : ℚ) (1 + 3 / 2 ^ 22) ∧
    agreeToSixDecimals (2 : ℚ) 2 ∧
    cacheKey (1 + 1 / 2 ^ 22 : ℚ) 2 = "1.000000_2.000000" ∧
    cacheKey (1 + 3 / 2 ^ 22 : ℚ) 2 = "1.000001_2.000000" ∧
    cacheFilePath (init "cache") (1 + 1 / 2 ^ 22 : ℚ) 2 ≠
      cacheFilePath (init "cache") (1 + 3 / 2 ^ 22 : ℚ) 2 := by
  have hfloor1 : ⌊|(1 + 1 / 2 ^ 22 : ℚ)| * 10 ^ 6⌋₊ = 1000000 := by
    rw [Nat.floor_eq_iff (by positivity)]
    norm_num [abs_of_pos]
  have hfloor2 : ⌊|(1 + 3 / 2 ^ 22 : ℚ)| * 10 ^ 6⌋₊ = 1000000 := by
    rw [Nat.floor_eq_iff (by positivity)]
    norm_num [abs_of_pos]
  have hk1 : cacheKey (1 + 1 / 2 ^ 22 : ℚ) 2 = "1.000000_2.000000" := by
    rw [cacheKey_eq_formatF6]
    rw [formatF6_of_nonneg _ 1000000 (by norm_num) (by norm_num) (by norm_num),
      formatF6_of_nonneg _ 2000000 (by norm_num) (by norm_num) (by norm_num)]
    decide
  have hk2 : cacheKey (1 + 3 / 2 ^ 22 : ℚ) 2 = "1.000001_2.000000" := by
    rw [cacheKey_eq_formatF6]
    rw [formatF6_of_nonneg _ 1000001 (by norm_num) (by norm_num) (by norm_num),
      formatF6_of_nonneg _ 2000000 (by norm_num) (by norm_num) (by norm_num)]
    decide
  refine ⟨⟨by norm_num, by rw [hfloor1, hfloor2]⟩, ⟨Iff.rfl, rfl⟩, hk1, hk2, ?_⟩
  unfold cacheFilePath
  rw [hk1, hk2]
  decide

end CacheKey

end StreetViewLandscape
